import Mathlib

/-!
Verification of the A2A messaging and coordination layer of the householdhub
repository (src/backend/a2a/broker.py, src/backend/orchestrator/main.py,
src/backend/common/schemas.py) against its natural-language specification.

The embedding is shallow: Python dataclasses/pydantic models become Lean
structures, the broker's mutable idempotency cache becomes explicit state
passing over an association list, `datetime` timestamps become integers on an
abstract seconds timeline, and JSON values are modelled by an inductive type.
Nondeterministic effects (uuid4 generation, the LLM invocation inside the
response composer, per-agent call outcomes) are passed in as parameters.
-/

namespace HouseholdHub

/-- JSON values, modelling the `Dict[str, Any]` payload/result maps of the
Python source.  Numbers are modelled as rationals. -/
inductive JsonVal where
  | null
  | bool (b : Bool)
  | num (q : Rat)
  | str (s : String)
  | arr (elems : List JsonVal)
  | obj (fields : List (String × JsonVal))

/-- A JSON object, i.e. a Python `Dict[str, Any]`. -/
abbrev JsonObj := List (String × JsonVal)

/-- `AgentType` enum from src/backend/common/schemas.py lines 13-18. -/
inductive AgentType where
  | ORCHESTRATOR
  | NL2SQL
  | VECTOR
  | API
  | FRONTEND
deriving DecidableEq, Repr

/-- The `.value` of each `AgentType` member (schemas.py lines 13-18). -/
def AgentType.value : AgentType → String
  | .ORCHESTRATOR => "orchestrator"
  | .NL2SQL => "nl2sql"
  | .VECTOR => "vector"
  | .API => "api"
  | .FRONTEND => "frontend"

/-- `IntentType` enum from src/backend/common/schemas.py lines 21-31,
in declaration order. -/
inductive IntentType where
  | TOP_CASH
  | CASH_BALANCE
  | CRM_POI
  | CUSTODIAL_18
  | RECON
  | EXEC_SUMMARY
  | MISSING_BEN
  | RMD
  | IRA_REMINDER
  | PERF_SUMMARY
deriving DecidableEq, Repr

/-- The `.value` of each `IntentType` member (schemas.py lines 21-31). -/
def IntentType.value : IntentType → String
  | .TOP_CASH => "TopCash"
  | .CASH_BALANCE => "CashBalance"
  | .CRM_POI => "CRMPOI"
  | .CUSTODIAL_18 => "Custodial18"
  | .RECON => "Recon"
  | .EXEC_SUMMARY => "ExecSummary"
  | .MISSING_BEN => "MissingBen"
  | .RMD => "RMD"
  | .IRA_REMINDER => "IRAReminder"
  | .PERF_SUMMARY => "PerfSummary"

/-- `MessageStatus` enum from src/backend/common/schemas.py lines 34-38. -/
inductive MessageStatus where
  | PENDING
  | PROCESSING
  | SUCCESS
  | ERROR
deriving DecidableEq, Repr

/-- `A2AContext` from src/backend/common/schemas.py lines 42-45. -/
structure A2AContext where
  household_id : Option String := none
  account_id : Option String := none
  auth : JsonObj := []

/-- `A2AMessage` from src/backend/common/schemas.py lines 48-57.
The pydantic model constrains only the field types; in particular
`to_agents : List[AgentType]` carries no length constraint, which this
structure mirrors faithfully.  The uuid/timestamp default factories are
irrelevant to validation and are not modelled as defaults here. -/
structure A2AMessage where
  message_id : String
  correlation_id : String
  timestamp : Int
  from_agent : AgentType
  to_agents : List AgentType
  intent : IntentType
  payload : JsonObj := []
  context : A2AContext := {}
  status : MessageStatus := .PENDING

/-- `A2AResponse` from src/backend/common/schemas.py lines 60-68. -/
structure A2AResponse where
  message_id : String
  correlation_id : String
  timestamp : Int
  from_agent : AgentType
  to_agent : AgentType
  status : MessageStatus
  result : JsonObj := []
  error : Option String := none

/-- The idempotency cache `A2ABroker._processed_messages : Dict[str, datetime]`
(broker.py line 97): message_id mapped to the time it was marked processed.
Modelled as an association list with at most one entry per key. -/
abbrev Cache := List (String × Int)

/-- A registered intent handler (broker.py `register_handler`, line 241):
an async callable receiving the message and either returning a result map
(possibly `None`, modelled by `Option`) or raising an exception, modelled by
`Except` carrying the exception text `str(e)`. -/
abbrev Handler := A2AMessage → Except String (Option JsonObj)

/-- The state of one `A2ABroker` instance relevant to message processing:
its own agent identity (`self.agent_type`, broker.py line 94), its handler
registry keyed by intent-value string (`self._message_handlers`, line 98;
registered under string keys and looked up by `message.intent.value`,
line 284), and its idempotency cache (line 97). -/
structure BrokerState where
  agent_type : AgentType
  handlers : String → Option Handler
  processed : Cache

/-- The one-hour retention window of the idempotency cache
(broker.py line 157, `timedelta(hours=1)`), in seconds. -/
def RETENTION : Int := 3600

/-- `A2ABroker._is_message_processed` (broker.py lines 153-163).  Returns the
seen flag together with the (possibly pruned) cache, making the method's
mutation of `self._processed_messages` explicit.  Note the pruning runs only
inside the `if message_id in self._processed_messages` branch: a check of an
absent id leaves the cache untouched. -/
def isMessageProcessed (cache : Cache) (message_id : String) (now : Int) :
    Bool × Cache :=
  if (cache.lookup message_id).isSome then
    let cutoff := now - RETENTION
    let pruned := cache.filter (fun kv => decide (cutoff < kv.2))
    ((pruned.lookup message_id).isSome, pruned)
  else
    (false, cache)

/-- `A2ABroker._mark_message_processed` (broker.py lines 165-167):
`self._processed_messages[message_id] = datetime.utcnow()`.  Python dict
assignment replaces any previous entry for the key. -/
def markProcessed (cache : Cache) (message_id : String) (now : Int) : Cache :=
  (message_id, now) :: cache.eraseP (fun kv => kv.1 == message_id)

/-- The possible outcomes of parsing a raw Service Bus message body in
`A2ABroker._process_message` (broker.py lines 248-272): the `json.loads` call
may fail (`invalidJson`); the parsed object may fail pydantic validation as an
`A2AMessage` or `A2AResponse` — for example an `intent` string outside the
closed `IntentType` enum, such as "foobar" (`invalidData`; the resulting
exception is caught by the method's outer `except`); it may carry
`message_type == "response"` (`responseBody`, line 256) or look like a
response by field sniffing for `result`/`from_agent`/`to_agent`
(`responseLike`, line 265); or it validates as a regular `A2AMessage`
(`message`). -/
inductive ParsedBody where
  | invalidJson
  | invalidData
  | responseBody (r : A2AResponse)
  | responseLike (r : A2AResponse)
  | message (m : A2AMessage)

/-- The observable result of one `_process_message` call: the optional
response it returns, the idempotency cache afterwards, and whether the
registered intent handler was invoked. -/
structure ProcessResult where
  response : Option A2AResponse
  processed : Cache
  handlerRan : Bool

/-- `A2ABroker._process_message` (broker.py lines 246-323).  `now` is the
current time (`datetime.utcnow()`), `fresh` the uuid generated for the
response `message_id` (`str(uuid4())`, lines 288/302/313).  Branches in
source order: response-shaped bodies are routed to `_handle_response` (which
only logs) and yield `None`; a message not addressed to this agent yields
`None` (line 275); an already-processed message yields `None` (line 279);
a missing handler yields an ERROR response with text
`"No handler for intent: <intent>"` (lines 285-294, the f-string rendering
of the `str`-mixin enum member, i.e. its value); otherwise the handler runs —
on success the message is marked processed and a SUCCESS response carries
`result or {}` (lines 297-308), on exception an ERROR response carries
`str(e)` and the message is not marked processed (lines 310-319).  Parse or
validation failures are caught by the outer `except` and yield `None`
(lines 321-323). -/
def processMessage (st : BrokerState) (body : ParsedBody) (now : Int)
    (fresh : String) : ProcessResult :=
  match body with
  | .invalidJson => ⟨none, st.processed, false⟩
  | .invalidData => ⟨none, st.processed, false⟩
  | .responseBody _ => ⟨none, st.processed, false⟩
  | .responseLike _ => ⟨none, st.processed, false⟩
  | .message m =>
    if st.agent_type ∈ m.to_agents then
      let seen := isMessageProcessed st.processed m.message_id now
      if seen.1 then
        ⟨none, seen.2, false⟩
      else
        match st.handlers m.intent.value with
        | none =>
          ⟨some { message_id := fresh
                  correlation_id := m.correlation_id
                  timestamp := now
                  from_agent := st.agent_type
                  to_agent := m.from_agent
                  status := .ERROR
                  result := []
                  error := some ("No handler for intent: " ++ m.intent.value) },
           seen.2, false⟩
        | some h =>
          match h m with
          | .ok r =>
            ⟨some { message_id := fresh
                    correlation_id := m.correlation_id
                    timestamp := now
                    from_agent := st.agent_type
                    to_agent := m.from_agent
                    status := .SUCCESS
                    result := r.getD []
                    error := none },
             markProcessed seen.2 m.message_id now, true⟩
          | .error e =>
            ⟨some { message_id := fresh
                    correlation_id := m.correlation_id
                    timestamp := now
                    from_agent := st.agent_type
                    to_agent := m.from_agent
                    status := .ERROR
                    result := []
                    error := some e },
             seen.2, true⟩
    else
      ⟨none, st.processed, false⟩

/-- What the receive loop does with the underlying Service Bus delivery. -/
inductive DeliveryAction where
  | completed
  | abandoned
deriving DecidableEq, Repr

/-- The outcome of one iteration of the receive loop for one delivery. -/
structure ListenOutcome where
  result : ProcessResult
  action : DeliveryAction

/-- One iteration of `A2ABroker.start_listening` for a delivered body
(broker.py lines 352-373): the body is processed, the response (if any) is
published, and the delivery is completed (line 365).  The `except` branch
that abandons the delivery (line 373) is reachable only when one of those
steps raises; `_process_message` never raises (its entire body is inside a
`try` whose `except` returns `None`, lines 321-323) and `publish_response`
catches its own exceptions and returns a bool (lines 237-239), so in this
embedding — which models no transport-level faults — every delivery is
completed.  In particular a handler exception does NOT abandon the delivery:
it is converted to an ERROR response inside `_process_message`. -/
def listenStep (st : BrokerState) (body : ParsedBody) (now : Int)
    (fresh : String) : ListenOutcome :=
  { result := processMessage st body now fresh
    action := .completed }

/-! ## Intent router (src/backend/orchestrator/main.py, class IntentRouter) -/

/-- Whether the first list is a prefix of the second (auxiliary for the
substring test). -/
def listPrefixOf : List Char → List Char → Bool
  | [], _ => true
  | _ :: _, [] => false
  | a :: as, b :: bs => a == b && listPrefixOf as bs

/-- Whether the first list occurs as a contiguous sublist of the second. -/
def listInfixOf (needle : List Char) : List Char → Bool
  | [] => listPrefixOf needle []
  | b :: bs => listPrefixOf needle (b :: bs) || listInfixOf needle bs

/-- Python `str.lower()`, restricted to the ASCII texts the router uses. -/
def strLower (s : String) : String := String.mk (s.data.map Char.toLower)

/-- Python's substring test `sub in s`. -/
def strContains (s sub : String) : Bool := listInfixOf sub.data s.data

/-- `IntentRouter.intent_patterns` (orchestrator/main.py lines 42-83): the
keyword phrases associated with each intent, in the dict's declaration order
(which Python preserves, fixing the tie-break order). -/
def intentPatterns : List (IntentType × List String) :=
  [ (.TOP_CASH,
      ["top cash", "highest cash", "most cash", "largest cash balance",
       "cash positions", "liquid funds", "wealthiest by cash"]),
    (.CASH_BALANCE,
      ["cash balance", "available cash", "cash for", "cash position for",
       "how much cash", "cash holdings", "liquid assets"]),
    (.CRM_POI,
      ["crm notes", "points of interest", "client notes", "advisor notes",
       "conversation history", "meeting notes", "discussion points"]),
    (.CUSTODIAL_18,
      ["turned 18", "custodial", "age of majority", "minor account",
       "transition", "adult account", "custody transfer"]),
    (.RECON,
      ["allocation", "mismatch", "drift", "rebalance", "target allocation",
       "asset allocation", "portfolio drift", "out of range"]),
    (.EXEC_SUMMARY,
      ["executive summary", "summary", "overview", "report summary",
       "household summary", "client summary", "portfolio summary"]),
    (.MISSING_BEN,
      ["missing beneficiary", "beneficiary", "no beneficiary",
       "beneficiary information", "estate planning"]),
    (.RMD,
      ["rmd", "required minimum distribution", "distribution deadline",
       "withdrawal required", "mandatory distribution"]),
    (.IRA_REMINDER,
      ["ira contribution", "contribution reminder", "ytd contribution",
       "annual contribution", "contribution limit", "no contributions"]),
    (.PERF_SUMMARY,
      ["performance", "returns", "gain", "loss", "qoq", "qtd", "ytd",
       "performance summary", "investment performance"]) ]

/-- The score of one intent for a query (orchestrator/main.py line 92):
`sum(1 for keyword in keywords if keyword in query_lower)`, i.e. the number
of the intent's keyword phrases occurring case-insensitively as substrings
of the query. -/
def intentScore (query : String) (keywords : List String) : Nat :=
  (keywords.filter (fun kw => strContains (strLower query) kw)).length

/-- The `intent_scores` dict built by `detect_intent` (orchestrator/main.py
lines 90-94): the (intent, score) pairs with positive score, in declaration
order (Python dict insertion order). -/
def scoredIntents (query : String) : List (IntentType × Nat) :=
  (intentPatterns.map (fun p => (p.1, intentScore query p.2))).filter
    (fun s => decide (0 < s.2))

/-- Python's `max(x :: l, key=f)`: folds left keeping the current maximum and
replacing it only on a strictly greater key, so the first element attaining
the maximum wins. -/
def pickMaxBy (f : α → Nat) (x : α) (l : List α) : α :=
  l.foldl (fun best p => if f best < f p then p else best) x

/-- `IntentRouter.detect_intent` (orchestrator/main.py lines 85-101): score
every intent, drop zero scores, default to `EXEC_SUMMARY` when nothing
matched (line 98), otherwise `max(intent_scores.keys(),
key=lambda k: intent_scores[k])` (line 101), which returns the
first-declared intent among those with the highest score. -/
def detectIntent (query : String) : IntentType :=
  match scoredIntents query with
  | [] => IntentType.EXEC_SUMMARY
  | s :: ss => (pickMaxBy (fun t => t.2) s ss).1

/-- `routing_map` from `IntentRouter.get_agent_routing`
(orchestrator/main.py lines 105-116), in declaration order. -/
def routingMap : List (IntentType × List AgentType) :=
  [ (.TOP_CASH, [.NL2SQL]),
    (.CASH_BALANCE, [.NL2SQL]),
    (.CRM_POI, [.VECTOR]),
    (.CUSTODIAL_18, [.NL2SQL, .VECTOR]),
    (.RECON, [.NL2SQL, .API]),
    (.EXEC_SUMMARY, [.NL2SQL, .VECTOR, .API]),
    (.MISSING_BEN, [.NL2SQL]),
    (.RMD, [.NL2SQL]),
    (.IRA_REMINDER, [.NL2SQL]),
    (.PERF_SUMMARY, [.NL2SQL, .API]) ]

/-- `IntentRouter.get_agent_routing` (orchestrator/main.py lines 103-118):
`routing_map.get(intent, [AgentType.NL2SQL])` — a static table lookup with
the single structured-data agent as default for unmapped intents. -/
def getAgentRouting (intent : IntentType) : List AgentType :=
  (routingMap.lookup intent).getD [AgentType.NL2SQL]

example : detectIntent "top cash balances" = IntentType.TOP_CASH := by decide
example : scoredIntents "top cash balances" =
    [(.TOP_CASH, 1), (.CASH_BALANCE, 1)] := by decide
example : detectIntent "what is the weather" = IntentType.EXEC_SUMMARY := by
  decide
example : getAgentRouting .TOP_CASH = [.NL2SQL] := by decide
example : detectIntent "executive summary of household" =
    IntentType.EXEC_SUMMARY := by decide

/-! ## Response composer and streaming pipeline
(src/backend/orchestrator/main.py, classes ResponseComposer and
OrchestratorAgent) -/

/-- `Citation` from src/backend/common/schemas.py lines 151-154.  The float
confidence is modelled as a rational. -/
structure Citation where
  source : String
  description : String
  confidence : Option Rat := none

/-- `QueryResponse` from src/backend/common/schemas.py lines 157-162. -/
structure QueryResponse where
  answer : String
  citations : List Citation := []
  sql_generated : Option String := none
  execution_time_ms : Int
  agent_calls : List String := []

/-- One agent's result dict as collected by the orchestrator
(`Dict[str, Any]`). -/
abbrev AgentResult := JsonObj

/-- Python `dict.get(key, default)` on a JSON object. -/
def objGet (d : JsonObj) (k : String) (dflt : JsonVal) : JsonVal :=
  (d.lookup k).getD dflt

/-- `dict.get(key, default)` on a JSON value expected to be an object
(non-objects yield the default, modelling `.get` on the empty-dict
fallbacks the source uses). -/
def JsonVal.get (v : JsonVal) (k : String) (dflt : JsonVal) : JsonVal :=
  match v with
  | .obj fs => objGet fs k dflt
  | _ => dflt

/-- The elements of a JSON array (the source only iterates values that are
lists; other values are modelled as empty). -/
def JsonVal.asArr : JsonVal → List JsonVal
  | .arr l => l
  | _ => []

/-- String content of a JSON value with a default; the source interpolates
these values into f-strings and only ever encounters strings there. -/
def JsonVal.asStr (v : JsonVal) (dflt : String) : String :=
  match v with
  | .str s => s
  | _ => dflt

/-- Numeric content of a JSON value with a default. -/
def JsonVal.asNum (v : JsonVal) (dflt : Rat) : Rat :=
  match v with
  | .num q => q
  | _ => dflt

/-- `ResponseComposer._extract_citations` (orchestrator/main.py lines
414-444): per agent, NL2SQL results contribute one citation per entry of
`tables_used`, VECTOR results one per search result (top 3), API results a
fixed external-services citation. -/
def extractCitations (agentResults : List (AgentType × AgentResult)) :
    List Citation :=
  (agentResults.map (fun ar =>
    match ar.1 with
    | .NL2SQL =>
      (objGet ar.2 "tables_used" (.arr [])).asArr.map (fun t =>
        { source := "sql:" ++ strLower (t.asStr "")
          description := "SQL query on " ++ t.asStr "" ++ " table"
          confidence := some (9/10) })
    | .VECTOR =>
      ((objGet ar.2 "results" (.arr [])).asArr.take 3).map (fun r =>
        { source := "search:crm-notes:" ++ (r.get "id" (.str "unknown")).asStr "unknown"
          description := "CRM note by " ++
            ((r.get "metadata" (.obj [])).get "author" (.str "Unknown")).asStr "Unknown"
          confidence := some ((r.get "score" (.num (1/2))).asNum (1/2)) })
    | .API =>
      [{ source := "api:external-services"
         description := "External API data (Plan Performance, Pershing)"
         confidence := some (8/10) }]
    | _ => [])).flatten

/-- `ResponseComposer._extract_sql` (orchestrator/main.py lines 446-449):
`agent_results.get(NL2SQL, {}).get('sql_query')`. -/
def extractSql (agentResults : List (AgentType × AgentResult)) :
    Option String :=
  match agentResults.lookup .NL2SQL with
  | none => none
  | some d =>
    match d.lookup "sql_query" with
    | some (.str s) => some s
    | _ => none

/-- The fallback answer built in `compose_response`'s `except` branch
(orchestrator/main.py line 340). -/
def apologyAnswer (e : String) : String :=
  "I apologize, but I encountered an error while processing your request: " ++ e

/-- `ResponseComposer.compose_response` (orchestrator/main.py lines 241-344).
The Semantic-Kernel LLM invocation is an external collaborator; its two
attempts (the primary `kernel.invoke` on line 303 and the fallback retry on
line 315) are passed in as `llm1`/`llm2` values of `Except` — exception text
or produced answer — and `elapsed` stands for the measured execution time.
On a successful invocation the composed `QueryResponse` carries the answer,
the extracted citations and SQL and the agent-call list (lines 317-334); if
both attempts raise, the outer `except` catches the second exception and
returns the apology response with empty citations, zero time and no agent
calls (lines 336-344) — the method itself never raises. -/
def composeResponse (intent : IntentType) (query : String)
    (agentResults : List (AgentType × AgentResult))
    (llm1 llm2 : Except String String) (elapsed : Int) : QueryResponse :=
  let success := fun (ans : String) =>
    { answer := ans
      citations := extractCitations agentResults
      sql_generated := extractSql agentResults
      execution_time_ms := elapsed
      agent_calls := agentResults.map (fun p => p.1.value) : QueryResponse }
  match llm1 with
  | .ok ans => success ans
  | .error _ =>
    match llm2 with
    | .ok ans => success ans
    | .error e2 =>
      { answer := apologyAnswer e2
        citations := []
        sql_generated := none
        execution_time_ms := 0
        agent_calls := [] }

/-- A streaming update (`StreamingUpdate`, schemas.py lines 165-169, emitted
through `_format_streaming_update`, orchestrator/main.py lines 732-744).
The source serializes each update as an SSE `data:` line; the embedding keeps
the structured value, and the `complete` event carries the composed
`QueryResponse` whose JSON dump is the source's `content` string
(line 567).  The `timestamp` default field is omitted. -/
inductive StreamEvent where
  | statusEv (content : String) (agent : AgentType)
  | partialEv (content : String) (agent : AgentType)
  | completeEv (response : QueryResponse)
  | errorEv (content : String) (agent : AgentType)

/-- Whether an event is terminal (`complete` or `error`). -/
def isTerminal : StreamEvent → Bool
  | .completeEv _ => true
  | .errorEv _ _ => true
  | _ => false

/-- Whether an event is an `error` event. -/
def isErrorEv : StreamEvent → Bool
  | .errorEv _ _ => true
  | _ => false

/-- The outcome of one fanned-out agent call as observed by the collection
loop (orchestrator/main.py lines 528-550): the awaited task returns a result
dict, or `asyncio.wait_for` raises `TimeoutError`, or the task raises some
other exception with text `str(e)`. -/
inductive AgentOutcome where
  | ok (r : AgentResult)
  | timeout
  | exc (e : String)

/-- The `agent_results` dict built by the collection loop
(orchestrator/main.py lines 527-550): only agents whose call completed
normally contribute an entry; timed-out and failed agents are skipped
entirely (their `except` branches record nothing). -/
def aggregate (targets : List AgentType) (outcomes : AgentType → AgentOutcome) :
    List (AgentType × AgentResult) :=
  targets.filterMap (fun a =>
    match outcomes a with
    | .ok r => some (a, r)
    | _ => none)

/-- The events emitted by the per-agent collection loop (orchestrator/main.py
lines 528-550): a waiting status, then a `partial` on success, a timeout
status on `TimeoutError`, or an error status on any other exception. -/
def agentPhaseEvents (targets : List AgentType)
    (outcomes : AgentType → AgentOutcome) : List StreamEvent :=
  (targets.map (fun a =>
    StreamEvent.statusEv ("Waiting for " ++ a.value ++ "...") a ::
    match outcomes a with
    | .ok _ => [StreamEvent.partialEv ("Received response from " ++ a.value) a]
    | .timeout =>
      [StreamEvent.statusEv ("Timeout from " ++ a.value ++ ", continuing...") a]
    | .exc e =>
      [StreamEvent.statusEv ("Error from " ++ a.value ++ ": " ++ e) a])).flatten

/-- An ASCII single-quote character, written via its code point. -/
def sq : String := String.singleton (Char.ofNat 39)

/-- Python's repr of a list of strings, as interpolated by the routing
status update (orchestrator/main.py line 515). -/
def pyStrListRepr (l : List String) : String :=
  "[" ++ String.intercalate ", " (l.map (fun s => sq ++ s ++ sq)) ++ "]"

/-- `OrchestratorAgent.process_query_streaming` (orchestrator/main.py lines
483-576) as the list of updates it yields.  `outcomes` gives each fanned-out
agent call's result (the `_query_agent` tasks of lines 519-524, which catch
their own exceptions internally but may still time out or raise at the
`await`), `llm1`/`llm2`/`elapsed` parameterize the composer as in
`composeResponse`.  The per-correlation-id session bookkeeping
(`self._active_queries`) is not modelled.  The terminal `error` event of the
`except` branch (lines 570-576) is emitted only when a step of the generator
itself raises; every step of the modelled pipeline is total (intent
detection is pure, per-agent failures are caught in the collection loop, and
`compose_response` catches its own exceptions), so the model always ends
with the `complete` event of line 566. -/
def processQueryStreaming (query : String)
    (outcomes : AgentType → AgentOutcome)
    (llm1 llm2 : Except String String) (elapsed : Int) : List StreamEvent :=
  let intent := detectIntent query
  let targets := getAgentRouting intent
  let agg := aggregate targets outcomes
  [StreamEvent.statusEv "Processing query..." .ORCHESTRATOR,
   StreamEvent.statusEv ("Detected intent: " ++ intent.value) .ORCHESTRATOR,
   StreamEvent.statusEv
     ("Routing to agents: " ++ pyStrListRepr (targets.map AgentType.value))
     .ORCHESTRATOR]
  ++ agentPhaseEvents targets outcomes
  ++ [StreamEvent.statusEv "Composing final response..." .ORCHESTRATOR,
      StreamEvent.completeEv
        (composeResponse intent query agg llm1 llm2 elapsed)]

/-! ## Concrete fixtures used by witnesses and counterexamples -/

/-- A handler that raises, with exception text "boom". -/
def hBoom : Handler := fun _ => .error "boom"

/-- A handler that succeeds with a result map `{rows: []}`. -/
def hRows : Handler := fun _ => .ok (some [("rows", JsonVal.arr [])])

/-- A TopCash request from the orchestrator to the nl2sql agent. -/
def mTop : A2AMessage :=
  { message_id := "m1"
    correlation_id := "c1"
    timestamp := 0
    from_agent := .ORCHESTRATOR
    to_agents := [.NL2SQL]
    intent := .TOP_CASH }

/-- An nl2sql broker whose TopCash handler raises, empty cache. -/
def stBoom : BrokerState :=
  { agent_type := .NL2SQL
    handlers := fun s => if s == "TopCash" then some hBoom else none
    processed := [] }

/-- An nl2sql broker whose TopCash handler raises, with a stale cache entry
for "m1" recorded at time 0. -/
def stStale : BrokerState :=
  { agent_type := .NL2SQL
    handlers := fun s => if s == "TopCash" then some hBoom else none
    processed := [("m1", 0)] }

/-- An nl2sql broker whose TopCash handler succeeds, empty cache. -/
def stOk : BrokerState :=
  { agent_type := .NL2SQL
    handlers := fun s => if s == "TopCash" then some hRows else none
    processed := [] }

/-- An nl2sql broker with no handlers registered and empty cache. -/
def stBare : BrokerState :=
  { agent_type := .NL2SQL
    handlers := fun _ => none
    processed := [] }

/-- A message whose `to_agents` list is empty: the `A2AMessage` data model
accepts it (no pydantic constraint requires the list to be non-empty). -/
def emptyToAgentsMsg : A2AMessage :=
  { message_id := "m-empty"
    correlation_id := "c-empty"
    timestamp := 0
    from_agent := .ORCHESTRATOR
    to_agents := []
    intent := .TOP_CASH }

/-! ## Claims about the broker -/

/-- C10: for every raw body that is not valid JSON, or that fails validation
as an `A2AMessage` or `A2AResponse` (e.g. an intent string outside the closed
`IntentType` enum), `_process_message` returns `None`: no response is
produced and the idempotency cache is unchanged, and the handler is not
invoked. -/
theorem c10_invalid_body (st : BrokerState) (now : Int) (fresh : String) :
    processMessage st .invalidJson now fresh = ⟨none, st.processed, false⟩
    ∧ processMessage st .invalidData now fresh = ⟨none, st.processed, false⟩ :=
  ⟨rfl, rfl⟩

/-- C8 counterexample: the claim "constructing or accepting a message with an
empty `to_agents` list is impossible (rejected by the data model)" is false:
`emptyToAgentsMsg` is a well-formed `A2AMessage` with `to_agents = []`. -/
theorem c8_counterexample : ¬ (∀ m : A2AMessage, m.to_agents ≠ []) :=
  fun h => h emptyToAgentsMsg rfl

/-- C8 (amended): the data model does not enforce non-emptiness of
`to_agents` — a message with an empty recipient list is constructible — but
such a message is never dispatched by any broker: the recipient-membership
check of `_process_message` (broker.py line 275) fails for every agent, so
the message is dropped with no response, no handler invocation and an
unchanged cache. -/
theorem c8_empty_to_agents :
    (∃ m : A2AMessage, m.to_agents = [])
    ∧ ∀ (st : BrokerState) (m : A2AMessage) (now : Int) (fresh : String),
        m.to_agents = [] →
        processMessage st (.message m) now fresh = ⟨none, st.processed, false⟩ := by
  refine ⟨⟨emptyToAgentsMsg, rfl⟩, ?_⟩
  intro st m now fresh h
  simp [processMessage, h]

/-- C8 witness: the amended theorem applied to the concrete empty-recipient
message and a concrete broker. -/
theorem c8_witness :
    processMessage stBare (.message emptyToAgentsMsg) 0 "w" =
      ⟨none, stBare.processed, false⟩ :=
  c8_empty_to_agents.2 stBare emptyToAgentsMsg 0 "w" rfl

/-- C5 counterexample: the claim "on every seen check, for any message_id,
present in the cache or not, entries older than the one-hour retention
window are evicted" is false: checking the absent id "m2" at time 10000
leaves the entry ("old", 0) — which is 10000 seconds old, far beyond the
3600-second window — in the cache. -/
theorem c5_counterexample :
    isMessageProcessed [("old", 0)] "m2" 10000 = (false, [("old", 0)])
    ∧ (0 : Int) < 10000 - RETENTION := by
  constructor
  · rfl
  · decide

/-- C5 (amended): the lazy eviction of `_is_message_processed` runs only on
seen checks whose `message_id` is currently present in the cache; when the
id is present every entry at or beyond the one-hour retention window is
evicted (only entries strictly newer than `now - RETENTION` survive), and
when the id is absent the cache is left completely unchanged. -/
theorem c5_lazy_eviction :
    (∀ (cache : Cache) (id : String) (now : Int),
        cache.lookup id = none →
        isMessageProcessed cache id now = (false, cache))
    ∧ (∀ (cache : Cache) (id : String) (now : Int),
        (cache.lookup id).isSome →
        (isMessageProcessed cache id now).2 =
          cache.filter (fun kv => decide (now - RETENTION < kv.2))) := by
  constructor
  · intro cache id now h
    simp [isMessageProcessed, h]
  · intro cache id now h
    simp [isMessageProcessed, h]

/-- C5 witness: both parts of the amended theorem at concrete inputs — a
check of an absent id leaves a stale cache untouched, and a check of a
present id prunes the stale entries. -/
theorem c5_witness :
    isMessageProcessed [("old", 0)] "m2" 10000 = (false, [("old", 0)])
    ∧ (isMessageProcessed [("m1", 0)] "m1" 10000).2 = [] :=
  ⟨c5_lazy_eviction.1 [("old", 0)] "m2" 10000 (by decide),
   (c5_lazy_eviction.2 [("m1", 0)] "m1" 10000 (by decide)).trans (by decide)⟩

/-- C2 counterexample: the claim demands that a delivered message with
unregistered intent "foobar" yields an ERROR response with text exactly
"No handler for intent: foobar"; but "foobar" lies outside the closed
`IntentType` enum, so the delivered body fails `A2AMessage` validation
(broker.py line 272 raises, caught at line 321) and `_process_message`
returns `None`: the message is dropped with no response of any kind. -/
theorem c2_counterexample :
    processMessage stBare .invalidData 0 "r" = ⟨none, [], false⟩ := rfl

/-- C2 (amended): for every delivered, not-yet-processed message whose intent
(necessarily a member of the closed `IntentType` enum) has no registered
handler, the broker produces a response with `status = ERROR` and error text
exactly "No handler for intent: " followed by the intent's string form, with
the sender as recipient and the correlation id preserved; it never silently
drops such a message.  (A body whose intent string is outside the enum never
reaches this branch: it fails validation and is dropped, see the C2
counterexample.) -/
theorem c2_unknown_intent (st : BrokerState) (m : A2AMessage) (now : Int)
    (fresh : String)
    (hmem : st.agent_type ∈ m.to_agents)
    (hclean : st.processed.lookup m.message_id = none)
    (hnone : st.handlers m.intent.value = none) :
    processMessage st (.message m) now fresh =
      ⟨some { message_id := fresh
              correlation_id := m.correlation_id
              timestamp := now
              from_agent := st.agent_type
              to_agent := m.from_agent
              status := .ERROR
              result := []
              error := some ("No handler for intent: " ++ m.intent.value) },
       st.processed, false⟩ := by
  simp [processMessage, isMessageProcessed, hclean, hmem, hnone]

/-- C2 witness: a TopCash message delivered to a broker with no registered
handlers is answered with the ERROR response "No handler for intent:
TopCash". -/
theorem c2_witness :
    processMessage stBare (.message mTop) 7 "r1" =
      ⟨some { message_id := "r1"
              correlation_id := "c1"
              timestamp := 7
              from_agent := .NL2SQL
              to_agent := .ORCHESTRATOR
              status := .ERROR
              result := []
              error := some "No handler for intent: TopCash" },
       stBare.processed, false⟩ :=
  c2_unknown_intent stBare mTop 7 "r1" (by decide) rfl rfl

/-- C3 counterexample: the claim is false on two counts at this input.  The
broker `stStale` holds a stale cache entry ("m1", 0) and its TopCash handler
raises "boom"; redelivering "m1" at time 4000 (beyond the retention window)
produces the ERROR response, but (i) the receive loop COMPLETES the delivery
— the handler exception was caught inside `_process_message`, so the abandon
branch of `start_listening` never runs — and (ii) the idempotency cache
changes from [("m1", 0)] to [] (the seen check evicted the stale entry), so
it is not left unchanged. -/
theorem c3_counterexample :
    listenStep stStale (.message mTop) 4000 "r2" =
      ⟨⟨some { message_id := "r2"
               correlation_id := "c1"
               timestamp := 4000
               from_agent := .NL2SQL
               to_agent := .ORCHESTRATOR
               status := .ERROR
               result := []
               error := some "boom" },
        [], true⟩,
       .completed⟩
    ∧ stStale.processed ≠ [] := by
  exact ⟨rfl, by decide⟩

/-- C3 (amended): for every delivered, not-yet-processed message whose
handler raises, the broker publishes an ERROR response carrying the
exception text (with the correlation id preserved), does not insert the
`message_id` into the idempotency cache (here the id was absent, so the
cache is returned exactly unchanged; a stale present id would additionally
be evicted by the seen check), and the receive loop COMPLETES (acknowledges)
the underlying delivery rather than abandoning it, because the handler
exception is caught inside `_process_message`; abandonment happens only when
the transport operations of the loop themselves raise. -/
theorem c3_handler_failure (st : BrokerState) (m : A2AMessage) (h : Handler)
    (e : String) (now : Int) (fresh : String)
    (hmem : st.agent_type ∈ m.to_agents)
    (hclean : st.processed.lookup m.message_id = none)
    (hh : st.handlers m.intent.value = some h)
    (hraise : h m = .error e) :
    listenStep st (.message m) now fresh =
      ⟨⟨some { message_id := fresh
               correlation_id := m.correlation_id
               timestamp := now
               from_agent := st.agent_type
               to_agent := m.from_agent
               status := .ERROR
               result := []
               error := some e },
        st.processed, true⟩,
       .completed⟩ := by
  simp [listenStep, processMessage, isMessageProcessed, hclean, hmem, hh,
    hraise]

/-- C3 witness: the amended theorem at a concrete broker whose TopCash
handler raises "boom" with an empty cache. -/
theorem c3_witness :
    listenStep stBoom (.message mTop) 5 "r1" =
      ⟨⟨some { message_id := "r1"
               correlation_id := "c1"
               timestamp := 5
               from_agent := .NL2SQL
               to_agent := .ORCHESTRATOR
               status := .ERROR
               result := []
               error := some "boom" },
        stBoom.processed, true⟩,
       .completed⟩ :=
  c3_handler_failure stBoom mTop hBoom "boom" 5 "r1" (by decide) rfl rfl rfl

/-- Auxiliary: a seen check of an id freshly marked at time `t` answers true
(and keeps the entry) at any time `now` with `now - RETENTION < t`. -/
theorem isMessageProcessed_fresh_head (cache : Cache) (id : String)
    (t now : Int) (hfresh : now - RETENTION < t) :
    isMessageProcessed ((id, t) :: cache) id now =
      (true,
       (id, t) :: cache.filter (fun kv => decide (now - RETENTION < kv.2))) := by
  simp [isMessageProcessed, List.lookup, hfresh]

/-- C1 counterexample: the claim's universal "for every A2A message ... the
handler is invoked at most once within the one-hour retention window" fails
when the handler raises: the broker marks a message processed only on
successful handler completion (broker.py line 299 is inside the `try`), so
delivering the same `message_id` "m1" twice (at times 100 and 200, well
inside the hour) to a broker whose handler raises invokes the handler both
times. -/
theorem c1_counterexample :
    (processMessage stBoom (.message mTop) 100 "f1").handlerRan = true
    ∧ (processMessage
        { stBoom with
          processed := (processMessage stBoom (.message mTop) 100 "f1").processed }
        (.message mTop) 200 "f2").handlerRan = true :=
  ⟨rfl, rfl⟩

/-- C1 (amended): when the handler completes successfully on the first
delivery, publishing the same `message_id` twice to the same agent within
the one-hour retention window invokes the intent handler exactly once: with
a clean cache, the first delivery (at `t1`) runs the handler, marks the id
processed and returns a SUCCESS response, and the second delivery of the
same id (at `t2`, with `t2 - RETENTION < t1`) finds the id in the
idempotency cache and returns `None` without invoking the handler.  (When
the handler raises, the id is not marked and a redelivery invokes the
handler again — delivery is at-least-once, see the counterexample.) -/
theorem c1_idempotency (st : BrokerState) (m : A2AMessage) (h : Handler)
    (r : Option JsonObj) (t1 t2 : Int) (f1 f2 : String)
    (hmem : st.agent_type ∈ m.to_agents)
    (hh : st.handlers m.intent.value = some h)
    (hok : h m = .ok r)
    (hclean : st.processed.lookup m.message_id = none)
    (hwin : t2 - RETENTION < t1)
    (r1 : ProcessResult) (hr1 : r1 = processMessage st (.message m) t1 f1)
    (r2 : ProcessResult)
    (hr2 : r2 = processMessage { st with processed := r1.processed }
      (.message m) t2 f2) :
    r1.handlerRan = true
    ∧ r1.response = some { message_id := f1
                           correlation_id := m.correlation_id
                           timestamp := t1
                           from_agent := st.agent_type
                           to_agent := m.from_agent
                           status := .SUCCESS
                           result := r.getD []
                           error := none }
    ∧ r2.handlerRan = false
    ∧ r2.response = none := by
  have e1 : r1 = ⟨some { message_id := f1
                         correlation_id := m.correlation_id
                         timestamp := t1
                         from_agent := st.agent_type
                         to_agent := m.from_agent
                         status := .SUCCESS
                         result := r.getD []
                         error := none },
                  markProcessed st.processed m.message_id t1, true⟩ := by
    rw [hr1]
    simp [processMessage, isMessageProcessed, hclean, hmem, hh, hok]
  have e2 : r2.response = none ∧ r2.handlerRan = false := by
    rw [hr2, e1]
    simp [processMessage, markProcessed, hmem,
      isMessageProcessed_fresh_head _ _ _ _ hwin]
  exact ⟨by rw [e1], by rw [e1], e2.2, e2.1⟩

/-- C1 witness: the theorem at a concrete broker whose TopCash handler
returns `{rows: []}`, first delivery at time 100 and redelivery of the same
id at time 3000 (within the hour). -/
theorem c1_witness :
    (processMessage stOk (.message mTop) 100 "f1").handlerRan = true
    ∧ (processMessage
        { stOk with
          processed := (processMessage stOk (.message mTop) 100 "f1").processed }
        (.message mTop) 3000 "f2").response = none := by
  have h := c1_idempotency stOk mTop hRows (some [("rows", JsonVal.arr [])])
    100 3000 "f1" "f2" (by decide) rfl rfl rfl (by decide)
    (processMessage stOk (.message mTop) 100 "f1") rfl
    (processMessage
      { stOk with
        processed := (processMessage stOk (.message mTop) 100 "f1").processed }
      (.message mTop) 3000 "f2") rfl
  exact ⟨h.1, h.2.2.2⟩

/-! ## Claims about the orchestrator -/

/-- C7: the query "top cash balances" routes to intent TopCash — both
TopCash and CashBalance score one keyword match ("top cash" resp. "cash
balance"), and the tie resolves to the first-declared TopCash — and to the
agent set [nl2sql] only; and `get_agent_routing` is exactly the routing-table
lookup with the single default agent [nl2sql] for intents absent from the
table (every member of the closed `IntentType` enum is in fact mapped, so
the default branch is unreachable for well-typed intents). -/
theorem c7_top_cash_routing :
    detectIntent "top cash balances" = IntentType.TOP_CASH
    ∧ scoredIntents "top cash balances" = [(.TOP_CASH, 1), (.CASH_BALANCE, 1)]
    ∧ getAgentRouting .TOP_CASH = [.NL2SQL]
    ∧ ∀ i : IntentType,
        getAgentRouting i = (routingMap.lookup i).getD [AgentType.NL2SQL] :=
  ⟨by decide, by decide, by decide, fun _ => rfl⟩

/-- Auxiliary: the event stream always ends with the `complete` event
carrying the composed response (orchestrator/main.py line 566). -/
theorem processQueryStreaming_getLast (query : String)
    (outcomes : AgentType → AgentOutcome)
    (llm1 llm2 : Except String String) (elapsed : Int) :
    (processQueryStreaming query outcomes llm1 llm2 elapsed).getLast? =
      some (StreamEvent.completeEv (composeResponse (detectIntent query)
        query (aggregate (getAgentRouting (detectIntent query)) outcomes)
        llm1 llm2 elapsed)) := by
  simp only [processQueryStreaming]
  rw [show ∀ (x y z : StreamEvent) (A B : List StreamEvent),
      [x, y, z] ++ A ++ B = ([x, y, z] ++ A) ++ B from fun _ _ _ _ _ => by
        simp,
    List.getLast?_append]
  rfl

/-- Outcomes for the C6 witness: nl2sql answers, vector times out, api
raises "down". -/
def outW : AgentType → AgentOutcome := fun a =>
  match a with
  | .NL2SQL => .ok []
  | .VECTOR => .timeout
  | .API => .exc "down"
  | _ => .ok []

/-- Outcomes for the C6 counterexample (the spec's Scenario 3): vector never
returns, everyone else answers. -/
def outCx : AgentType → AgentOutcome := fun a =>
  match a with
  | .VECTOR => .timeout
  | _ => .ok []

/-- C6 counterexample: the claim says a timed-out agent "is recorded as
failed/timed-out in the aggregate".  With Scenario 3 outcomes (vector times
out during an executive-summary fan-out), the aggregate handed to the
composer contains entries for nl2sql and api only — the vector agent is
omitted entirely, not recorded as failed — while the stream still ends in a
`complete` event. -/
theorem c6_counterexample :
    (aggregate (getAgentRouting (detectIntent "executive summary")) outCx).map
        Prod.fst = [AgentType.NL2SQL, AgentType.API]
    ∧ (processQueryStreaming "executive summary" outCx (.ok "partial answer")
        (.ok "partial answer") 3).getLast? =
      some (StreamEvent.completeEv (composeResponse .EXEC_SUMMARY
        "executive summary"
        (aggregate (getAgentRouting (detectIntent "executive summary")) outCx)
        (.ok "partial answer") (.ok "partial answer") 3)) :=
  ⟨by decide, rfl⟩

/-- C6 (amended): in the Coordinator's fan-out a per-agent timeout or
exception does not abort the query: the failing agent is reported through a
status streaming event ("Timeout from <agent>, continuing..." resp. "Error
from <agent>: <e>") and is omitted from the aggregate; every agent whose
call completed contributes its result to the aggregate passed to the
composer; and the stream still ends with the terminal `complete` event
carrying the composed response. -/
theorem c6_partial_failure (query : String)
    (outcomes : AgentType → AgentOutcome)
    (llm1 llm2 : Except String String) (elapsed : Int) :
    (∀ a ∈ getAgentRouting (detectIntent query), outcomes a = .timeout →
        StreamEvent.statusEv ("Timeout from " ++ a.value ++ ", continuing...") a
          ∈ processQueryStreaming query outcomes llm1 llm2 elapsed
        ∧ ∀ r, (a, r) ∉ aggregate (getAgentRouting (detectIntent query))
            outcomes)
    ∧ (∀ a ∈ getAgentRouting (detectIntent query), ∀ e, outcomes a = .exc e →
        StreamEvent.statusEv ("Error from " ++ a.value ++ ": " ++ e) a
          ∈ processQueryStreaming query outcomes llm1 llm2 elapsed
        ∧ ∀ r, (a, r) ∉ aggregate (getAgentRouting (detectIntent query))
            outcomes)
    ∧ (∀ a ∈ getAgentRouting (detectIntent query), ∀ r, outcomes a = .ok r →
        (a, r) ∈ aggregate (getAgentRouting (detectIntent query)) outcomes)
    ∧ (processQueryStreaming query outcomes llm1 llm2 elapsed).getLast? =
        some (StreamEvent.completeEv (composeResponse (detectIntent query)
          query (aggregate (getAgentRouting (detectIntent query)) outcomes)
          llm1 llm2 elapsed)) := by
  refine ⟨?_, ?_, ?_, ?_⟩
  · intro a ha hto
    constructor
    · simp only [processQueryStreaming, List.mem_append, List.mem_cons]
      refine Or.inl (Or.inr ?_)
      simp only [agentPhaseEvents, List.mem_flatten]
      exact ⟨_, List.mem_map_of_mem _ ha, by simp [hto]⟩
    · intro r hmem
      rcases List.mem_filterMap.mp hmem with ⟨b, _, hb⟩
      rcases hout : outcomes b with _ | _ | _ <;> simp [hout] at hb
      exact absurd hto (by rw [← hb.1, hout]; simp)
  · intro a ha e hexc
    constructor
    · simp only [processQueryStreaming, List.mem_append, List.mem_cons]
      refine Or.inl (Or.inr ?_)
      simp only [agentPhaseEvents, List.mem_flatten]
      exact ⟨_, List.mem_map_of_mem _ ha, by simp [hexc]⟩
    · intro r hmem
      rcases List.mem_filterMap.mp hmem with ⟨b, _, hb⟩
      rcases hout : outcomes b with _ | _ | _ <;> simp [hout] at hb
      exact absurd hexc (by rw [← hb.1, hout]; simp)
  · intro a ha r hok
    exact List.mem_filterMap.mpr ⟨a, ha, by simp [hok]⟩
  · exact processQueryStreaming_getLast query outcomes llm1 llm2 elapsed

/-- C6 witness: Scenario-3-style concrete outcomes during an
executive-summary fan-out — the timeout and error status events are emitted,
nl2sql's result reaches the aggregate, and the stream ends with `complete`. -/
theorem c6_witness :
    StreamEvent.statusEv "Timeout from vector, continuing..." .VECTOR
      ∈ processQueryStreaming "executive summary" outW (.ok "ans") (.ok "ans") 3
    ∧ StreamEvent.statusEv "Error from api: down" .API
      ∈ processQueryStreaming "executive summary" outW (.ok "ans") (.ok "ans") 3
    ∧ (AgentType.NL2SQL, ([] : AgentResult))
      ∈ aggregate (getAgentRouting (detectIntent "executive summary")) outW
    ∧ (processQueryStreaming "executive summary" outW (.ok "ans") (.ok "ans")
        3).getLast? =
      some (StreamEvent.completeEv (composeResponse
        (detectIntent "executive summary") "executive summary"
        (aggregate (getAgentRouting (detectIntent "executive summary")) outW)
        (.ok "ans") (.ok "ans") 3)) := by
  have h := c6_partial_failure "executive summary" outW (.ok "ans") (.ok "ans") 3
  exact ⟨(h.1 .VECTOR (by decide) rfl).1, (h.2.1 .API (by decide) "down" rfl).1,
    h.2.2.1 .NL2SQL (by decide) [] rfl, h.2.2.2⟩

/-- Auxiliary: the per-agent collection loop emits only `status` and
`partial` events, never a terminal one. -/
theorem agentPhaseEvents_filter_isTerminal (targets : List AgentType)
    (outcomes : AgentType → AgentOutcome) :
    (agentPhaseEvents targets outcomes).filter isTerminal = [] := by
  induction targets with
  | nil => rfl
  | cons a ts ih =>
    simp only [agentPhaseEvents, List.map_cons, List.flatten_cons,
      List.filter_append] at ih ⊢
    rw [ih, List.append_nil]
    cases outcomes a <;> rfl

/-- C9 counterexample: the claim says a composer failure is surfaced as a
terminal `error` event, not as a `complete` event.  At this concrete input
both LLM invocation attempts inside `compose_response` raise ("down"), yet
the stream ends with a `complete` event carrying the apology answer, and no
`error` event appears anywhere in the stream — `compose_response` catches
its own exception (orchestrator/main.py lines 336-344), so the generator's
`error` branch never fires. -/
theorem c9_counterexample :
    (processQueryStreaming "hello" (fun _ => .ok []) (.error "down")
        (.error "down") 0).getLast? =
      some (StreamEvent.completeEv
        { answer := apologyAnswer "down"
          citations := []
          sql_generated := none
          execution_time_ms := 0
          agent_calls := [] })
    ∧ (processQueryStreaming "hello" (fun _ => .ok []) (.error "down")
        (.error "down") 0).filter isErrorEv = [] :=
  ⟨rfl, rfl⟩

/-- C9 (amended): for every query the event stream ends with exactly one
terminal event, and it is a `complete` event: when composition succeeds it
carries the composed answer, and when the composer's internal LLM invocation
raises (both attempts), the composer catches the failure itself and the
terminal `complete` event carries the apology answer naming the error — no
`error` event is emitted (the generator's `error` branch fires only if a
pipeline step outside the per-agent and composer try blocks raises, and
every modelled step is total). -/
theorem c9_terminal_event (query : String)
    (outcomes : AgentType → AgentOutcome)
    (llm1 llm2 : Except String String) (elapsed : Int) :
    ((processQueryStreaming query outcomes llm1 llm2 elapsed).filter
        isTerminal).length = 1
    ∧ (processQueryStreaming query outcomes llm1 llm2 elapsed).getLast? =
        some (StreamEvent.completeEv (composeResponse (detectIntent query)
          query (aggregate (getAgentRouting (detectIntent query)) outcomes)
          llm1 llm2 elapsed))
    ∧ (processQueryStreaming query outcomes llm1 llm2 elapsed).filter
        isErrorEv = []
    ∧ (∀ e1 e2, llm1 = .error e1 → llm2 = .error e2 →
        composeResponse (detectIntent query) query
            (aggregate (getAgentRouting (detectIntent query)) outcomes)
            llm1 llm2 elapsed =
          { answer := apologyAnswer e2
            citations := []
            sql_generated := none
            execution_time_ms := 0
            agent_calls := [] }) := by
  refine ⟨?_, processQueryStreaming_getLast query outcomes llm1 llm2 elapsed,
    ?_, ?_⟩
  · simp only [processQueryStreaming, List.filter_append,
      agentPhaseEvents_filter_isTerminal]
    rfl
  · simp only [processQueryStreaming, List.filter_append]
    have : (agentPhaseEvents (getAgentRouting (detectIntent query)) outcomes).filter
        isErrorEv = [] := by
      induction getAgentRouting (detectIntent query) with
      | nil => rfl
      | cons a ts ih =>
        simp only [agentPhaseEvents, List.map_cons, List.flatten_cons,
          List.filter_append] at ih ⊢
        rw [ih, List.append_nil]
        cases outcomes a <;> rfl
    rw [this]
    rfl
  · intro e1 e2 h1 h2
    rw [h1, h2]
    rfl

/-- C9 witness: the amended theorem at a concrete input whose composer
fails twice — one terminal event, and the composed response is the apology. -/
theorem c9_witness :
    ((processQueryStreaming "hello" (fun _ => .ok []) (.error "down")
        (.error "down") 0).filter isTerminal).length = 1
    ∧ composeResponse (detectIntent "hello") "hello"
        (aggregate (getAgentRouting (detectIntent "hello")) (fun _ => .ok []))
        (.error "down") (.error "down") 0 =
      { answer := apologyAnswer "down"
        citations := []
        sql_generated := none
        execution_time_ms := 0
        agent_calls := [] } := by
  have h := c9_terminal_event "hello" (fun _ => .ok []) (.error "down")
    (.error "down") 0
  exact ⟨h.1, h.2.2.2 "down" "down" rfl rfl⟩

/-! ## The intent-detection characterization (C4) -/

/-- Python's first-maximum rule: `pickMaxBy f x l` splits `x :: l` into a
prefix of elements with strictly smaller key, the picked element, and a
suffix, and the picked element's key bounds every key in `x :: l`. -/
theorem pickMaxBy_decomp (f : α → Nat) :
    ∀ (l : List α) (x : α),
      ∃ l1 l2, x :: l = l1 ++ pickMaxBy f x l :: l2
        ∧ (∀ y ∈ l1, f y < f (pickMaxBy f x l))
        ∧ (∀ y ∈ x :: l, f y ≤ f (pickMaxBy f x l)) := by
  intro l
  induction l with
  | nil =>
    intro x
    exact ⟨[], [], rfl, by simp, by simp [pickMaxBy]⟩
  | cons a t ih =>
    intro x
    by_cases hcmp : f x < f a
    · have hpick : pickMaxBy f x (a :: t) = pickMaxBy f a t := by
        simp [pickMaxBy, List.foldl_cons, hcmp]
      obtain ⟨l1, l2, hdec, hlt, hle⟩ := ih a
      refine ⟨x :: l1, l2, ?_, ?_, ?_⟩
      · rw [hpick, List.cons_append, ← hdec]
      · intro y hy
        rw [hpick]
        rcases List.mem_cons.mp hy with rfl | hy1
        · exact lt_of_lt_of_le hcmp (hle a (List.mem_cons_self a t))
        · exact hlt y hy1
      · intro y hy
        rw [hpick]
        rcases List.mem_cons.mp hy with rfl | hy1
        · exact le_of_lt (lt_of_lt_of_le hcmp (hle a (List.mem_cons_self a t)))
        · exact hle y hy1
    · have hpick : pickMaxBy f x (a :: t) = pickMaxBy f x t := by
        simp [pickMaxBy, List.foldl_cons, hcmp]
      obtain ⟨l1, l2, hdec, hlt, hle⟩ := ih x
      have hax : f a ≤ f x := Nat.le_of_not_lt hcmp
      cases l1 with
      | nil =>
        have hx : x = pickMaxBy f x t ∧ t = l2 := by
          simpa using hdec
        refine ⟨[], a :: l2, ?_, by simp, ?_⟩
        · rw [hpick, List.nil_append, ← hx.1, ← hx.2]
        · intro y hy
          rw [hpick]
          rcases List.mem_cons.mp hy with rfl | hy1
          · exact hle y (List.mem_cons_self y t)
          · rcases List.mem_cons.mp hy1 with rfl | hyt
            · exact le_trans hax (hle x (List.mem_cons_self x t))
            · exact hle y (List.mem_cons_of_mem x hyt)
      | cons b l1' =>
        have hx : x = b ∧ t = l1' ++ pickMaxBy f x t :: l2 := by
          simpa using hdec
        have hbmem : b ∈ b :: l1' := List.mem_cons_self b l1'
        refine ⟨x :: a :: l1', l2, ?_, ?_, ?_⟩
        · rw [hpick]
          simp only [List.cons_append]
          rw [← hx.2]
        · intro y hy
          rw [hpick]
          rcases List.mem_cons.mp hy with rfl | hy1
          · calc f y = f b := congrArg f hx.1
              _ < f (pickMaxBy f y t) := hlt b hbmem
          · rcases List.mem_cons.mp hy1 with rfl | hyl
            · calc f y ≤ f x := hax
                _ = f b := congrArg f hx.1
                _ < f (pickMaxBy f x t) := hlt b hbmem
            · exact hlt y (List.mem_cons_of_mem b hyl)
        · intro y hy
          rw [hpick]
          rcases List.mem_cons.mp hy with rfl | hy1
          · exact hle y (List.mem_cons_self y t)
          · rcases List.mem_cons.mp hy1 with rfl | hyt
            · exact le_trans hax (hle x (List.mem_cons_self x t))
            · exact hle y (List.mem_cons_of_mem x hyt)

/-- A decomposition of a filtered list lifts to the original list. -/
theorem filter_decomp (P : α → Bool) :
    ∀ (l l1f : List α) (m : α) (l2f : List α),
      l.filter P = l1f ++ m :: l2f →
      ∃ L1 L2, l = L1 ++ m :: L2 ∧ L1.filter P = l1f ∧ L2.filter P = l2f := by
  intro l
  induction l with
  | nil =>
    intro l1f m l2f h
    simp at h
  | cons a t ih =>
    intro l1f m l2f h
    rw [List.filter_cons] at h
    by_cases hPa : P a
    · rw [if_pos hPa] at h
      cases l1f with
      | nil =>
        have hh : a = m ∧ t.filter P = l2f := by simpa using h
        exact ⟨[], t, by rw [List.nil_append, hh.1], by simp, hh.2⟩
      | cons b l1f' =>
        have hh : a = b ∧ t.filter P = l1f' ++ m :: l2f := by simpa using h
        obtain ⟨L1, L2, hdec, hf1, hf2⟩ := ih l1f' m l2f hh.2
        refine ⟨a :: L1, L2, by rw [List.cons_append, hdec], ?_, hf2⟩
        rw [List.filter_cons, if_pos hPa, hf1, hh.1]
    · rw [if_neg hPa] at h
      obtain ⟨L1, L2, hdec, hf1, hf2⟩ := ih l1f m l2f h
      refine ⟨a :: L1, L2, by rw [List.cons_append, hdec], ?_, hf2⟩
      rw [List.filter_cons, if_neg hPa, hf1]

/-- A decomposition of a mapped list lifts to the original list. -/
theorem map_decomp (f : α → β) :
    ∀ (l : List α) (L1 : List β) (m : β) (L2 : List β),
      l.map f = L1 ++ m :: L2 →
      ∃ P1 p P2, l = P1 ++ p :: P2 ∧ f p = m
        ∧ P1.map f = L1 ∧ P2.map f = L2 := by
  intro l
  induction l with
  | nil =>
    intro L1 m L2 h
    simp at h
  | cons a t ih =>
    intro L1 m L2 h
    cases L1 with
    | nil =>
      have hh : f a = m ∧ t.map f = L2 := by simpa using h
      exact ⟨[], a, t, rfl, hh.1, rfl, hh.2⟩
    | cons b L1' =>
      have hh : f a = b ∧ t.map f = L1' ++ m :: L2 := by simpa using h
      obtain ⟨P1, p, P2, hdec, hfp, h1, h2⟩ := ih L1' m L2 hh.2
      exact ⟨a :: P1, p, P2, by rw [List.cons_append, hdec], hfp,
        by rw [List.map_cons, h1, hh.1], h2⟩

/-- No intent's keywords match the query at all. -/
def allZeroScores (q : String) : Prop :=
  ∀ p ∈ intentPatterns, intentScore q p.2 = 0

instance (q : String) : Decidable (allZeroScores q) := by
  unfold allZeroScores
  infer_instance

/-- C4: `detect_intent` is a pure (deterministic, total) function of the
query text with the routing behaviour the spec states: when no keyword of
any intent matches, it returns the default `EXEC_SUMMARY`; otherwise the
returned intent appears in the pattern table with a positive score that is
maximal over all intents, and every intent declared before it scores
strictly less — ties resolve to the first-declared intent. -/
theorem c4_detect_intent :
    (∀ q : String, allZeroScores q → detectIntent q = IntentType.EXEC_SUMMARY)
    ∧ (∀ q : String, ¬ allZeroScores q →
        ∃ kws l1 l2,
          intentPatterns = l1 ++ (detectIntent q, kws) :: l2
          ∧ 0 < intentScore q kws
          ∧ (∀ p ∈ intentPatterns, intentScore q p.2 ≤ intentScore q kws)
          ∧ (∀ p ∈ l1, intentScore q p.2 < intentScore q kws)) := by
  constructor
  · intro q hz
    have hnil : scoredIntents q = [] := by
      rw [scoredIntents, List.filter_eq_nil_iff]
      intro s hs
      rcases List.mem_map.mp hs with ⟨p, hp, hsp⟩
      simp [← hsp, hz p hp]
    rw [detectIntent, hnil]
  · intro q hnz
    rcases hscored : scoredIntents q with _ | ⟨s, ss⟩
    · exact absurd (fun p hp => by
        by_contra hpos
        have hmem : (p.1, intentScore q p.2) ∈ scoredIntents q := by
          rw [scoredIntents]
          refine List.mem_filter.mpr ⟨List.mem_map.mpr ⟨p, hp, rfl⟩, ?_⟩
          simpa using Nat.pos_of_ne_zero hpos
        rw [hscored] at hmem
        exact absurd hmem (List.not_mem_nil _)) hnz
    · have hd : detectIntent q = (pickMaxBy (fun t => t.2) s ss).1 := by
        rw [detectIntent, hscored]
      obtain ⟨l1f, l2f, hdec, hlt, hle⟩ := pickMaxBy_decomp (fun t => t.2) ss s
      have hfil : (intentPatterns.map
          (fun p => (p.1, intentScore q p.2))).filter
            (fun s => decide (0 < s.2)) =
          l1f ++ pickMaxBy (fun t => t.2) s ss :: l2f := by
        rw [← scoredIntents, hscored, hdec]
      obtain ⟨L1, L2, hdecL, hf1, _⟩ :=
        filter_decomp (fun u : IntentType × Nat => decide (0 < u.2))
          (intentPatterns.map (fun p => (p.1, intentScore q p.2))) l1f
          (pickMaxBy (fun t => t.2) s ss) l2f hfil
      obtain ⟨P1, p, P2, hdecP, hgp, hm1, _⟩ :=
        map_decomp (fun p : IntentType × List String =>
            (p.1, intentScore q p.2)) intentPatterns L1
          (pickMaxBy (fun t => t.2) s ss) L2 hdecL
      have hMmem : pickMaxBy (fun t => t.2) s ss ∈ scoredIntents q := by
        rw [hscored, hdec]
        exact List.mem_append_right l1f (List.mem_cons_self _ l2f)
      have hMpos : 0 < (pickMaxBy (fun t => t.2) s ss).2 := by
        have := (List.mem_filter.mp (by rwa [scoredIntents] at hMmem)).2
        simpa using this
      have hp1 : p.1 = detectIntent q := by
        rw [hd, ← hgp]
      have hp2 : intentScore q p.2 = (pickMaxBy (fun t => t.2) s ss).2 := by
        rw [← hgp]
      refine ⟨p.2, P1, P2, ?_, ?_, ?_, ?_⟩
      · rw [hdecP, ← hp1]
      · rw [hp2]
        exact hMpos
      · intro p' hp'
        rw [hp2]
        by_cases hpos : 0 < intentScore q p'.2
        · have hmem : (p'.1, intentScore q p'.2) ∈ scoredIntents q := by
            rw [scoredIntents]
            exact List.mem_filter.mpr
              ⟨List.mem_map.mpr ⟨p', hp', rfl⟩, by simpa using hpos⟩
          rw [hscored] at hmem
          exact hle _ hmem
        · exact le_trans (Nat.le_of_not_lt hpos) (Nat.zero_le _)
      · intro p' hp'
        rw [hp2]
        have hmemL1 : (p'.1, intentScore q p'.2) ∈ L1 := by
          rw [← hm1]
          exact List.mem_map.mpr ⟨p', hp', rfl⟩
        by_cases hpos : 0 < intentScore q p'.2
        · have hmemf : (p'.1, intentScore q p'.2) ∈ l1f := by
            rw [← hf1]
            exact List.mem_filter.mpr ⟨hmemL1, by simpa using hpos⟩
          exact hlt _ hmemf
        · exact lt_of_le_of_lt (Nat.le_of_not_lt hpos)
            (by simpa using hMpos)

/-- C4 witness: the theorem applied at two concrete queries — "what time is
it" matches no keyword and yields the default intent, "top cash balances"
matches keywords and the decomposition it produces shows the pattern table
is non-empty. -/
theorem c4_witness :
    detectIntent "what time is it" = IntentType.EXEC_SUMMARY
    ∧ intentPatterns ≠ [] := by
  refine ⟨c4_detect_intent.1 "what time is it" (by decide), ?_⟩
  obtain ⟨kws, l1, l2, hdec, -, -, -⟩ :=
    c4_detect_intent.2 "top cash balances" (by decide)
  rw [hdec]
  simp

end HouseholdHub
